import Mathlib

/-!
Verification of the reference-region construction engine
(`refregion`: morphology, probability thresholding, the general builder,
the cerebellar builder, and morphometrics) against its design
specification.  Volumes are shallowly embedded as functions from integer
voxel coordinates, together with an explicit grid shape; morphological
operators enumerate the ball structuring element as a concrete offset
list, with the border conventions of `skimage.morphology.binary_erosion`
(border is foreground) and `binary_dilation` (border is background).
-/

namespace RefRegion

/-- A voxel coordinate of a 3-D array. -/
abbrev Coord := Int × Int × Int

/-- The grid shape of a 3-D array. -/
structure Shape where
  nx : Nat
  ny : Nat
  nz : Nat
deriving DecidableEq

/-- Whether coordinate `c` lies inside the voxel grid of shape `s`. -/
def inB (s : Shape) (c : Coord) : Bool :=
  decide (0 ≤ c.1) && decide (c.1 < (s.nx : Int)) &&
  decide (0 ≤ c.2.1) && decide (c.2.1 < (s.ny : Int)) &&
  decide (0 ≤ c.2.2) && decide (c.2.2 < (s.nz : Int))

/-- All in-bounds coordinates of shape `s` (the voxels of an array). -/
def Shape.coords (s : Shape) : List Coord :=
  (List.range s.nx).flatMap fun (x : Nat) =>
    (List.range s.ny).flatMap fun (y : Nat) =>
      (List.range s.nz).map fun (z : Nat) => ((x : Int), (y : Int), (z : Int))

/-- The integers `-r, …, r`. -/
def intRange (r : Nat) : List Int :=
  (List.range (2 * r + 1)).map fun (i : Nat) => (i : Int) - (r : Int)

/-- Offsets of the ball structuring element `skimage.morphology.ball r`:
the points of the `[-r, r]³` grid with `x² + y² + z² ≤ r²`. -/
def ballOffsets (r : Nat) : List Coord :=
  ((intRange r).flatMap fun x =>
      (intRange r).flatMap fun y =>
        (intRange r).map fun z => (x, y, z)).filter
    fun b => decide (b.1 * b.1 + b.2.1 * b.2.1 + b.2.2 * b.2.2 ≤ (r : Int) * (r : Int))

/-- Coordinate translation by an offset. -/
def cAdd (c b : Coord) : Coord := (c.1 + b.1, c.2.1 + b.2.1, c.2.2 + b.2.2)

/-- `morphology._clip`: `np.clip(v, 0, 1)` on one voxel value. -/
def _clip (v : Int) : Int := max 0 (min 1 v)

/-- `morphology.dilate`: `binary_dilation(mask, ball(by_radius))` followed by
`_clip`.  A voxel is on iff some ball offset lands on an in-bounds non-zero
input voxel (out-of-bounds neighbours are background).  The binary result is
already `{0,1}`-valued, so the trailing `_clip` of the source is absorbed. -/
def dilate (s : Shape) (mask : Coord → Int) (by_radius : Nat) : Coord → Int :=
  fun c =>
    if (ballOffsets by_radius).any
        (fun b => inB s (cAdd c b) && decide (mask (cAdd c b) ≠ 0)) then 1 else 0

/-- `morphology.erode`: `binary_erosion(mask, ball(by_radius))` followed by
`_clip`.  A voxel is on iff every ball offset lands on a non-zero input voxel
or out of bounds (skimage erodes with `border_value = True`). -/
def erode (s : Shape) (mask : Coord → Int) (by_radius : Nat) : Coord → Int :=
  fun c =>
    if (ballOffsets by_radius).all
        (fun b => !(inB s (cAdd c b)) || decide (mask (cAdd c b) ≠ 0)) then 1 else 0

/-- The offsets of `skimage.morphology.ball` at an arbitrary (unvalidated)
integer radius, as the operators receive it from `morphology.py`: the usual
integer ball for `r ≥ 0`.  For the traced negative radius `r = −1`,
`n = 2*r + 1 = −1` makes numpy's `mgrid` produce a single grid point of
value 1 per axis, whose squared distance 3 exceeds `(−1)² = 1`, so the
1×1×1 footprint is all-zero and contributes no offsets.  (Radii below −1
produce fractional grids — floating-point behaviour; no statement below uses
this function at any negative radius other than −1.) -/
def ballOffsetsI (r : Int) : List Coord :=
  if 0 ≤ r then ballOffsets r.toNat else []

/-- `morphology.dilate` as evaluated at an arbitrary integer radius — the
function body performs no radius check of its own before calling
`binary_dilation(mask, ball(by_radius))`. -/
def dilateI (s : Shape) (mask : Coord → Int) (by_radius : Int) : Coord → Int :=
  fun c =>
    if (ballOffsetsI by_radius).any
        (fun b => inB s (cAdd c b) && decide (mask (cAdd c b) ≠ 0)) then 1 else 0

/-- `morphology.erode` as evaluated at an arbitrary integer radius — the
function body performs no radius check of its own before calling
`binary_erosion(mask, ball(by_radius))`. -/
def erodeI (s : Shape) (mask : Coord → Int) (by_radius : Int) : Coord → Int :=
  fun c =>
    if (ballOffsetsI by_radius).all
        (fun b => !(inB s (cAdd c b)) || decide (mask (cAdd c b) ≠ 0)) then 1 else 0

/-- `morphology.apply_probability_mask`: threshold the probability map at
`probability_threshold` (inclusive `>=`), multiply into the mask, `_clip`. -/
def apply_probability_mask (mask : Coord → Int) (probability_map : Coord → ℚ)
    (probability_threshold : ℚ) : Coord → Int :=
  fun c =>
    _clip (mask c * (if probability_map c ≥ probability_threshold then 1 else 0))

/-- `m = np.zeros(s); m[np.isin(vol, ids)] = 1` — the indicator mask of
membership of the label volume's values in `ids`. -/
def labelMask (s : Shape) (vol : Coord → Int) (ids : List Int) : Coord → Int :=
  fun c => if inB s c && ids.contains (vol c) then 1 else 0

/-- `metrics.voxel_count`: number of non-zero voxels of the array. -/
def voxel_count (s : Shape) (mask : Coord → Int) : Nat :=
  s.coords.countP fun c => decide (mask c ≠ 0)

/-- `metrics.volume_mm3`: voxel count times the product of voxel dimensions. -/
def volume_mm3 (s : Shape) (mask : Coord → Int) (voxel_dims : ℚ × ℚ × ℚ) : ℚ :=
  (voxel_count s mask : ℚ) * (voxel_dims.1 * voxel_dims.2.1 * voxel_dims.2.2)

/-- `metrics.retention_percentage`: percentage of original voxels retained;
`0.0` when the original mask is empty. -/
def retention_percentage (s : Shape) (original_mask processed_mask : Coord → Int) : ℚ :=
  let original_count := voxel_count s original_mask
  if original_count = 0 then 0
  else (voxel_count s processed_mask : ℚ) / (original_count : ℚ) * 100

/-- `refregion.custom_ref_region`: select the include labels, optionally
apply the probability threshold (only when BOTH the probability mask and the
threshold are provided), erode, build and dilate the exclusion mask, subtract
and `_clip`.  Radii are the already-validated non-negative voxel counts. -/
def custom_ref_region (s : Shape) (mask : Coord → Int) (refregion_indices : List Int)
    (erode_by_voxels : Nat) (exclude_indices : List Int) (dilate_by_voxels : Nat)
    (probability_mask : Option (Coord → ℚ)) (probability_threshold : Option ℚ) :
    Coord → Int :=
  let refregion0 := labelMask s mask refregion_indices
  let refregion1 :=
    match probability_mask, probability_threshold with
    | some pm, some pt =>
        fun c => refregion0 c * (if pm c ≥ pt then 1 else 0)
    | _, _ => refregion0
  let refregion2 := erode s refregion1 erode_by_voxels
  let exclude_mask := dilate s (labelMask s mask exclude_indices) dilate_by_voxels
  fun c => _clip (refregion2 c - exclude_mask c)

/-- The general pipeline as worded by the specification (§4.3):
`selection = 1 where label ∈ include_set`, `S' = S AND (P ≥ t)` when both the
probability volume and threshold are supplied and `S' = S` otherwise, then
`clip(erode(S', e) − dilate(X, d), 0, 1)` with `X` the exclusion indicator. -/
def specPipeline (s : Shape) (label : Coord → Int) (include_set : List Int)
    (erosion_radius : Nat) (exclude_set : List Int) (dilation_radius : Nat)
    (probability : Option (Coord → ℚ)) (threshold : Option ℚ) : Coord → Int :=
  let selection := labelMask s label include_set
  let selectionP :=
    match probability, threshold with
    | some pm, some pt =>
        fun c => if selection c = 1 ∧ pm c ≥ pt then 1 else 0
    | _, _ => selection
  let exclusion := labelMask s label exclude_set
  fun c =>
    _clip (erode s selectionP erosion_radius c - dilate s exclusion dilation_radius c)

/-! ### The cerebellar builder (`cerebellum.py`) -/

/-- Cerebellar cortical labels excluding the vermis (`cerebellum_no_vermis_ids`). -/
def cerebellum_no_vermis_ids : List Int :=
  [600, 601, 602, 603, 604, 605, 607, 608, 610, 611, 613, 614, 616, 617,
   619, 620, 622, 623, 625, 626, 628]

/-- Vermis labels (`vermis_ids`). -/
def vermis_ids : List Int := [606, 609, 612, 615, 618, 621, 624, 627]

/-- Cerebral-cortex labels of the whole-brain segmentation (`[3, 42]`). -/
def cerebral_cortex_ids : List Int := [3, 42]

/-- The voxel-array computation of `cerebellum.cerebellum_reference_region`,
translated statement by statement.  `mask_after` is the same numpy array as
`cerebellum_no_vermis_mask_limited` (plain assignment, no copy), so the two
in-place writes `mask_after[cerebral_cortex == 1] = 2` and
`mask_after[vermis_mask == 1] = 3` mutate the limited mask before it is used
to zero the saved volume; the later write wins where both apply.  (The
analogous writes through `mask_before` mutate `cerebellum_no_vermis_mask`
after its last read, so they do not affect the output.)  The saved volume is
the original cerebellar label data zeroed where the (mutated) limited mask
is zero. -/
def cerebellum_pipeline (s : Shape) (cereb brain : Coord → Int) : Coord → Int :=
  let cerebral_cortex := labelMask s brain cerebral_cortex_ids
  let cerebellum_no_vermis_mask := labelMask s cereb cerebellum_no_vermis_ids
  let vermis_mask := labelMask s cereb vermis_ids
  let cerebral_cortex_dilated := dilate s cerebral_cortex 4
  let vermis_mask_dilated := dilate s vermis_mask 4
  let cerebellum_no_vermis_mask_eroded := erode s cerebellum_no_vermis_mask 1
  let cerebellum_no_vermis_mask_limited := fun c =>
    _clip (cerebellum_no_vermis_mask_eroded c - cerebral_cortex_dilated c -
      vermis_mask_dilated c)
  let mask_after := fun c =>
    if vermis_mask c = 1 then 3
    else if cerebral_cortex c = 1 then 2
    else cerebellum_no_vermis_mask_limited c
  fun c => if mask_after c = 0 then 0 else cereb c

/-- The cerebellar formula as worded by the specification (§4.4):
`clip(cerebellum_eroded − vermis_dilated − cortex_dilated, 0, 1)` with
erosion radius 1 and dilation radii 4. -/
def cerebellumSpecFormula (s : Shape) (cereb brain : Coord → Int) : Coord → Int :=
  fun c =>
    _clip (erode s (labelMask s cereb cerebellum_no_vermis_ids) 1 c -
      dilate s (labelMask s cereb vermis_ids) 4 c -
      dilate s (labelMask s brain cerebral_cortex_ids) 4 c)

/-- The module-level `brain_segmentation` path constant of `cerebellum.py`
(lines 14–15), built from the hard-coded subject/session directories. -/
def brain_segmentation : String :=
  "/proc_data1/brainage/ERAP_Project_folder/BIDS/derivatives/fastsurfer/sub-101_ses-Baseline/mri/aseg.auto.mgz"

/-- `cerebellum.cerebellum_reference_region` at the I/O level: `load` stands
for `nib.load` + `get_fdata` (an arbitrary environment mapping a path to a
shaped volume).  The body loads the cerebellar volume from its parameter but
the brain volume from the module-level `brain_segmentation` constant; the
`aseg_segmentation_file` parameter is not read.  The function returns the
array it would save (file writing elided from the in-memory model). -/
def cerebellum_reference_region (load : String → Shape × (Coord → Int))
    (cerebellum_segmentation_file aseg_segmentation_file : String) :
    Shape × (Coord → Int) :=
  let cereb := load cerebellum_segmentation_file
  let brain := load brain_segmentation
  (cereb.1, cerebellum_pipeline cereb.1 cereb.2 brain.2)

/-! ### Validation layers (`wrappers.py`, `config.py`, `cli/refregion.py`) -/

/-- Error values raised by the validation layer (`ValueError` subcases). -/
inductive PipelineError where
  | invalidParameter (msg : String)
  | shapeMismatch (msg : String)
deriving DecidableEq

/-- The morphometrics record assembled by `wrappers.custom_ref_region`. -/
structure Morphometrics where
  voxels : Nat
  volume : ℚ
  retention : ℚ
deriving DecidableEq

/-- `config.ReferenceRegionConfig._ref_indices_non_empty`: the model
validator rejecting an empty `ref_indices` list. -/
def ref_indices_non_empty (ref_indices : List Int) :
    Except PipelineError (List Int) :=
  if ref_indices.length = 0 then
    .error (.invalidParameter "ref_indices must not be empty")
  else .ok ref_indices

/-- The CLI check of `cli/refregion.py` (lines 143–144): `parser.error` fires
exactly when one of `--probability_mask` / `--probability_threshold` is given
without the other. -/
def cli_probability_pair_rejected (has_probability_mask has_probability_threshold : Bool) :
    Bool :=
  has_probability_mask != has_probability_threshold

/-- The condition `probability_threshold is not None and
(probability_threshold < 0 or probability_threshold > 1)` of
`wrappers.custom_ref_region`. -/
def threshold_out_of_range : Option ℚ → Bool
  | some pt => decide (pt < 0) || decide (1 < pt)
  | none => false

/-- `wrappers.custom_ref_region`, in-memory part: the eager parameter
validation (negative radii, out-of-range threshold — in source order), then
the original label selection, the call to `refregion.custom_ref_region`, and
the morphometrics record.  File existence/loading and saving are the I/O
boundary and are elided; radii arrive as unconstrained integers and are only
passed on (as the non-negative numbers they were validated to be) when
validation succeeds. -/
def wrappers_custom_ref_region (s : Shape) (mask : Coord → Int)
    (refregion_indices : List Int) (erode_by_voxels : Int)
    (exclude_indices : List Int) (dilate_by_voxels : Int)
    (probability_mask : Option (Coord → ℚ)) (probability_threshold : Option ℚ)
    (voxel_dims : ℚ × ℚ × ℚ) :
    Except PipelineError ((Coord → Int) × Morphometrics) :=
  if erode_by_voxels < 0 then
    .error (.invalidParameter "erode_by_voxels must be >= 0")
  else if dilate_by_voxels < 0 then
    .error (.invalidParameter "dilate_by_voxels must be >= 0")
  else if threshold_out_of_range probability_threshold then
    .error (.invalidParameter "probability_threshold must be between 0 and 1")
  else
    let original_mask := labelMask s mask refregion_indices
    let mask_ref := custom_ref_region s mask refregion_indices
      erode_by_voxels.toNat exclude_indices dilate_by_voxels.toNat
      probability_mask probability_threshold
    .ok (mask_ref,
      { voxels := voxel_count s mask_ref
        volume := volume_mm3 s mask_ref voxel_dims
        retention := retention_percentage s original_mask mask_ref })

/-! ### Concrete volumes used to instantiate the theorems -/

/-- A 1×1×1 grid. -/
def sh1 : Shape := ⟨1, 1, 1⟩

/-- A 2×2×2 grid. -/
def sh2 : Shape := ⟨2, 2, 2⟩

/-- The constant label volume with value 1 everywhere. -/
def oneVol : Coord → Int := fun _ => 1

/-- The all-zero volume. -/
def zeroVol : Coord → Int := fun _ => 0

/-- A cerebellar segmentation consisting of a single vermis voxel (label 606). -/
def vermisVol : Coord → Int := fun _ => 606

/-- A constant probability volume of value 1/2. -/
def probHalf : Coord → ℚ := fun _ => 1/2

/-! ### Helper lemmas about the morphological primitives -/

theorem zero_mem_intRange (r : Nat) : (0 : Int) ∈ intRange r := by
  have hr : r ∈ List.range (2 * r + 1) := List.mem_range.mpr (by omega)
  have hz : (0 : Int) = (r : Int) - (r : Int) := (sub_self _).symm
  rw [intRange, hz]
  exact List.mem_map_of_mem (fun (i : Nat) => (i : Int) - (r : Int)) hr

theorem origin_mem_ballOffsets (r : Nat) : ((0, 0, 0) : Coord) ∈ ballOffsets r := by
  unfold ballOffsets
  refine List.mem_filter.mpr ⟨?_, ?_⟩
  · refine List.mem_flatMap.mpr ⟨0, zero_mem_intRange r, ?_⟩
    refine List.mem_flatMap.mpr ⟨0, zero_mem_intRange r, ?_⟩
    exact List.mem_map.mpr ⟨0, zero_mem_intRange r, rfl⟩
  · exact decide_eq_true (by simpa using mul_self_nonneg (r : Int))

theorem cAdd_origin (c : Coord) : cAdd c (0, 0, 0) = c := by
  simp [cAdd]

theorem _clip_mem (v : Int) : _clip v = 0 ∨ _clip v = 1 := by
  unfold _clip; omega

theorem _clip_of_nonpos {v : Int} (h : v ≤ 0) : _clip v = 0 := by
  unfold _clip; omega

theorem dilate_mem (s : Shape) (M : Coord → Int) (r : Nat) (c : Coord) :
    dilate s M r c = 0 ∨ dilate s M r c = 1 := by
  unfold dilate
  split <;> simp

theorem erode_mem (s : Shape) (M : Coord → Int) (r : Nat) (c : Coord) :
    erode s M r c = 0 ∨ erode s M r c = 1 := by
  unfold erode
  split <;> simp

theorem labelMask_mem (s : Shape) (vol : Coord → Int) (ids : List Int) (c : Coord) :
    labelMask s vol ids c = 0 ∨ labelMask s vol ids c = 1 := by
  unfold labelMask
  split <;> simp

theorem erode_eq_one_imp {s : Shape} {M : Coord → Int} {r : Nat} {c : Coord}
    (hc : inB s c = true) (h : erode s M r c = 1) : M c ≠ 0 := by
  unfold erode at h
  by_cases hall : (ballOffsets r).all
      (fun b => !(inB s (cAdd c b)) || decide (M (cAdd c b) ≠ 0)) = true
  · have horig := List.all_eq_true.mp hall _ (origin_mem_ballOffsets r)
    rw [cAdd_origin] at horig
    rcases Bool.or_eq_true_iff.mp horig with hneg | hdec
    · rw [hc] at hneg
      simp at hneg
    · exact of_decide_eq_true hdec
  · rw [if_neg hall] at h
    exact absurd h (by decide)

theorem dilate_eq_one_of {s : Shape} {M : Coord → Int} (r : Nat) {c : Coord}
    (hc : inB s c = true) (h : M c ≠ 0) : dilate s M r c = 1 := by
  unfold dilate
  refine if_pos (List.any_eq_true.mpr ⟨(0, 0, 0), origin_mem_ballOffsets r, ?_⟩)
  rw [cAdd_origin]
  exact Bool.and_eq_true_iff.mpr ⟨hc, decide_eq_true h⟩

/-- **C3.** For every binary mask `M` and radius `r ≥ 0`, erosion never adds a
voxel and dilation never removes one: voxel-wise `erode(M, r) ≤ M ≤
dilate(M, r)` at every in-bounds voxel. -/
theorem erode_le_self_le_dilate (s : Shape) (M : Coord → Int) (r : Nat)
    (hM : ∀ c : Coord, inB s c = true → M c = 0 ∨ M c = 1) :
    ∀ c : Coord, inB s c = true →
      erode s M r c ≤ M c ∧ M c ≤ dilate s M r c := by
  intro c hc
  constructor
  · rcases erode_mem s M r c with h0 | h1
    · rcases hM c hc with h | h <;> omega
    · have hne := erode_eq_one_imp hc h1
      rcases hM c hc with h | h
      · exact absurd h hne
      · omega
  · rcases hM c hc with h | h
    · rcases dilate_mem s M r c with h0 | h1 <;> omega
    · rw [dilate_eq_one_of r hc (by omega), h]

/-- Witness for **C3** at the constant mask 1 on a 2×2×2 grid with radius 1. -/
theorem erode_le_self_le_dilate_witness :
    inB sh2 (0, 0, 0) = true ∧
      erode sh2 oneVol 1 (0, 0, 0) ≤ oneVol (0, 0, 0) ∧
      oneVol (0, 0, 0) ≤ dilate sh2 oneVol 1 (0, 0, 0) :=
  ⟨by decide,
    erode_le_self_le_dilate sh2 oneVol 1 (fun _ _ => Or.inr rfl) (0, 0, 0) (by decide)⟩

/-- **C4.** For every binary mask `M`, probability volume `P` and threshold
`t`, `apply_probability_mask M P t` is voxel-wise `M AND (P ≥ t)` with the
comparison inclusive (a voxel whose probability equals `t` exactly is
retained), and every output value is 0 or 1. -/
theorem apply_probability_mask_spec (M : Coord → Int) (P : Coord → ℚ) (t : ℚ)
    (hM : ∀ c : Coord, M c = 0 ∨ M c = 1) :
    ∀ c : Coord,
      apply_probability_mask M P t c = (if M c = 1 ∧ t ≤ P c then 1 else 0) ∧
      (apply_probability_mask M P t c = 0 ∨ apply_probability_mask M P t c = 1) ∧
      (M c = 1 → P c = t → apply_probability_mask M P t c = 1) := by
  intro c
  have hval : apply_probability_mask M P t c = (if M c = 1 ∧ t ≤ P c then 1 else 0) := by
    rcases hM c with h | h <;> by_cases hp : t ≤ P c <;>
      simp [apply_probability_mask, _clip, h, hp, ge_iff_le]
  refine ⟨hval, ?_, ?_⟩
  · rw [hval]
    split <;> simp
  · intro h1 h2
    rw [hval, if_pos ⟨h1, le_of_eq h2.symm⟩]

/-- Witness for **C4**: a probability exactly at the threshold is retained. -/
theorem apply_probability_mask_spec_witness :
    (∀ c : Coord, oneVol c = 0 ∨ oneVol c = 1) ∧
    apply_probability_mask oneVol probHalf (1/2) (0, 0, 0) = 1 :=
  ⟨fun _ => Or.inr rfl,
    ((apply_probability_mask_spec oneVol probHalf (1/2)
      (fun _ => Or.inr rfl)) (0, 0, 0)).2.2 rfl rfl⟩

/-- **C5.** `retention_percentage` is
`voxel_count processed / voxel_count original * 100`, is exactly 0 when the
original mask is empty (the 0/0 case is a defined value, not an error), and
is exactly 100 on `(M, M)` for non-empty `M`. -/
theorem retention_percentage_spec (s : Shape) (original_mask processed_mask : Coord → Int) :
    (voxel_count s original_mask = 0 →
      retention_percentage s original_mask processed_mask = 0) ∧
    (voxel_count s original_mask ≠ 0 →
      retention_percentage s original_mask processed_mask =
        (voxel_count s processed_mask : ℚ) / (voxel_count s original_mask : ℚ) * 100) ∧
    (voxel_count s original_mask ≠ 0 →
      retention_percentage s original_mask original_mask = 100) := by
  refine ⟨?_, ?_, ?_⟩
  · intro h
    simp only [retention_percentage]
    rw [if_pos h]
  · intro h
    simp only [retention_percentage]
    rw [if_neg h]
  · intro h
    simp only [retention_percentage]
    rw [if_neg h, div_self (Nat.cast_ne_zero.mpr h), one_mul]

/-- Witness for **C5**: full retention of a non-empty mask is 100%. -/
theorem retention_percentage_spec_witness :
    voxel_count sh2 oneVol ≠ 0 ∧ retention_percentage sh2 oneVol oneVol = 100 :=
  ⟨by decide, (retention_percentage_spec sh2 oneVol oneVol).2.2 (by decide)⟩

/-- **C1.** The general builder `custom_ref_region` computes exactly the
specification pipeline `clip(erode(S', e) − dilate(X, d), 0, 1)` where `S` is
the include-label indicator, `S' = S AND (P ≥ t)` when both the probability
volume and threshold are supplied and `S' = S` otherwise, and `X` is the
exclude-label indicator — probability masking before erosion, exclusion
dilation before subtraction, final clip. -/
theorem custom_ref_region_eq_specPipeline (s : Shape) (mask : Coord → Int)
    (refregion_indices : List Int) (erode_by_voxels : Nat)
    (exclude_indices : List Int) (dilate_by_voxels : Nat)
    (probability_mask : Option (Coord → ℚ)) (probability_threshold : Option ℚ) :
    custom_ref_region s mask refregion_indices erode_by_voxels exclude_indices
      dilate_by_voxels probability_mask probability_threshold =
    specPipeline s mask refregion_indices erode_by_voxels exclude_indices
      dilate_by_voxels probability_mask probability_threshold := by
  rcases probability_mask with _ | pm
  · rcases probability_threshold with _ | pt <;> rfl
  · rcases probability_threshold with _ | pt
    · rfl
    · have hfg : (fun c => labelMask s mask refregion_indices c *
          (if pm c ≥ pt then 1 else 0)) =
          (fun c => if labelMask s mask refregion_indices c = 1 ∧ pm c ≥ pt
            then (1 : Int) else 0) := by
        funext c
        rcases labelMask_mem s mask refregion_indices c with h | h <;>
          by_cases hp : pm c ≥ pt <;> simp [h, hp]
      exact congrArg (fun (F : Coord → Int) => fun c =>
        _clip (erode s F erode_by_voxels c -
          dilate s (labelMask s mask exclude_indices) dilate_by_voxels c)) hfg

theorem dilate_nonneg (s : Shape) (M : Coord → Int) (r : Nat) (c : Coord) :
    0 ≤ dilate s M r c := by
  rcases dilate_mem s M r c with h | h <;> omega

theorem erode_eq_zero_of {s : Shape} {M : Coord → Int} (r : Nat) {c : Coord}
    (hc : inB s c = true) (h : M c = 0) : erode s M r c = 0 := by
  rcases erode_mem s M r c with h0 | h1
  · exact h0
  · exact absurd (erode_eq_one_imp hc h1) (by simp [h])

theorem inB_of_mem_coords {s : Shape} {c : Coord} (h : c ∈ s.coords) :
    inB s c = true := by
  simp only [Shape.coords, List.mem_flatMap, List.mem_map, List.mem_range] at h
  obtain ⟨x, hx, y, hy, z, hz, rfl⟩ := h
  simp only [inB, Bool.and_eq_true, decide_eq_true_eq]
  omega

theorem labelMask_nil (s : Shape) (vol : Coord → Int) (c : Coord) :
    labelMask s vol [] c = 0 := by
  simp [labelMask]

/-- **C6, counterexample.** Invoking the general builder with an empty
include-label set does not fail: at a concrete input it returns the all-zero
mask as an ordinary value (the builder body contains no validation at all). -/
theorem custom_ref_region_empty_include_counterexample :
    custom_ref_region sh2 oneVol [] 0 [] 0 none none (0, 0, 0) = 0 := by
  decide

/-- **C6, amended.** The builder itself accepts an empty include set and
returns the all-zero mask; the non-emptiness rejection lives in the
configuration layer, whose validator refuses an empty `ref_indices` list. -/
theorem custom_ref_region_empty_include_amended :
    (∀ (s : Shape) (mask : Coord → Int) (e : Nat) (excl : List Int) (d : Nat)
        (P : Option (Coord → ℚ)) (t : Option ℚ) (c : Coord), inB s c = true →
        custom_ref_region s mask [] e excl d P t c = 0) ∧
    ref_indices_non_empty [] =
      .error (.invalidParameter "ref_indices must not be empty") := by
  constructor
  · intro s mask e excl d P t c hc
    have hdil := dilate_nonneg s (labelMask s mask excl) d c
    rcases P with _ | pm <;> rcases t with _ | pt <;>
      · show _clip (erode s _ e c - dilate s (labelMask s mask excl) d c) = 0
        rw [erode_eq_zero_of e hc (by simp [labelMask_nil])]
        exact _clip_of_nonpos (by omega)
  · rfl

/-- Witness for **C6, amended**: concrete all-zero output on a 2×2×2 grid. -/
theorem custom_ref_region_empty_include_amended_witness :
    inB sh2 (0, 0, 1) = true ∧
      custom_ref_region sh2 oneVol [] 1 [1] 1 none none (0, 0, 1) = 0 :=
  ⟨by decide,
    custom_ref_region_empty_include_amended.1 sh2 oneVol 1 [1] 1 none none
      (0, 0, 1) (by decide)⟩

/-- **C7, counterexample.** Invoking the general builder with a probability
threshold but no probability volume does not fail: at a concrete input it
returns the plain (unmasked) selection as an ordinary value. -/
theorem custom_ref_region_half_pair_counterexample :
    custom_ref_region sh2 oneVol [1] 0 [] 0 none (some (1/2)) (0, 0, 0) = 1 := by
  decide

/-- **C7, amended.** The general builder silently ignores a half-supplied
probability pair — it behaves exactly as if no probability masking had been
requested; the both-or-neither requirement is enforced only at the CLI layer,
whose parser check fires exactly when one of the pair is given without the
other. -/
theorem custom_ref_region_half_pair_amended :
    (∀ (s : Shape) (mask : Coord → Int) (incl : List Int) (e : Nat)
        (excl : List Int) (d : Nat) (P : Option (Coord → ℚ)) (t : Option ℚ),
        P = none ∨ t = none →
        custom_ref_region s mask incl e excl d P t =
          custom_ref_region s mask incl e excl d none none) ∧
    (∀ has_mask has_threshold : Bool, has_mask ≠ has_threshold →
        cli_probability_pair_rejected has_mask has_threshold = true) := by
  constructor
  · intro s mask incl e excl d P t h
    rcases P with _ | pm
    · rcases t with _ | pt <;> rfl
    · rcases t with _ | pt
      · rfl
      · rcases h with h | h <;> simp at h
  · intro a b h
    cases a <;> cases b <;> simp_all [cli_probability_pair_rejected]

/-- Witness for **C7, amended**: a threshold without a volume is a no-op for
the builder, and is rejected by the CLI pair check. -/
theorem custom_ref_region_half_pair_amended_witness :
    ((none : Option (Coord → ℚ)) = none ∨ (some (1/2 : ℚ) : Option ℚ) = none) ∧
    custom_ref_region sh2 oneVol [1] 0 [] 0 none (some (1/2)) =
      custom_ref_region sh2 oneVol [1] 0 [] 0 none none ∧
    cli_probability_pair_rejected false true = true :=
  ⟨Or.inl rfl,
    custom_ref_region_half_pair_amended.1 sh2 oneVol [1] 0 [] 0 none
      (some (1/2)) (Or.inl rfl),
    custom_ref_region_half_pair_amended.2 false true (by decide)⟩

/-- At a validated non-negative radius the unvalidated-radius operators
coincide with the pipeline operators. -/
theorem erodeI_dilateI_natCast (s : Shape) (M : Coord → Int) (r : Nat) :
    erodeI s M (r : Int) = erode s M r ∧ dilateI s M (r : Int) = dilate s M r := by
  have hb : ballOffsetsI (r : Int) = ballOffsets r := by
    rw [ballOffsetsI, if_pos (by omega), Int.toNat_natCast]
  constructor <;> funext c <;> simp only [erodeI, dilateI, erode, dilate, hb]

/-- The eager validation of the wrapper entry point: a negative erosion or
dilation radius is rejected with an InvalidParameter error before any
morphological operation runs. -/
theorem wrappers_negative_radius_rejected (s : Shape) (mask : Coord → Int)
    (incl : List Int) (e : Int) (excl : List Int) (d : Int)
    (P : Option (Coord → ℚ)) (t : Option ℚ) (dims : ℚ × ℚ × ℚ)
    (h : e < 0 ∨ d < 0) :
    ∃ msg, wrappers_custom_ref_region s mask incl e excl d P t dims =
      .error (.invalidParameter msg) := by
  by_cases he : e < 0
  · refine ⟨"erode_by_voxels must be >= 0", ?_⟩
    unfold wrappers_custom_ref_region
    rw [if_pos he]
  · have hd : d < 0 := h.resolve_left he
    refine ⟨"dilate_by_voxels must be >= 0", ?_⟩
    unfold wrappers_custom_ref_region
    rw [if_neg he, if_pos hd]

/-- **C8, counterexample.** The morphological operators themselves do not
fail on a negative radius: at radius −1 they return ordinary values — erode
of the all-zero mask returns 1 and dilate of the all-ones mask returns 0 at
a concrete voxel, which is neither an error nor the radius-0 clamp (the
identity would return 0 and 1 respectively). -/
theorem morphology_negative_radius_counterexample :
    erodeI sh1 zeroVol (-1) (0, 0, 0) = 1 ∧
    dilateI sh1 oneVol (-1) (0, 0, 0) = 0 := by
  decide

/-- **C8, amended.** The core operators `morphology.erode`/`dilate` perform
no radius validation and do not fail on a negative radius: at radius −1 the
ball footprint is empty, so for every mask erode silently returns the
all-ones mask and dilate the all-zero mask (a silent wrong result — neither
an InvalidParameter error nor a clamp to the radius-0 identity); the
InvalidParameter rejection of a negative erosion or dilation radius is
enforced eagerly by the wrapper entry point before the operators run. -/
theorem morphology_negative_radius_amended :
    (∀ (s : Shape) (M : Coord → Int) (c : Coord),
        erodeI s M (-1) c = 1 ∧ dilateI s M (-1) c = 0) ∧
    (∀ (s : Shape) (mask : Coord → Int) (incl : List Int) (e : Int)
        (excl : List Int) (d : Int) (P : Option (Coord → ℚ)) (t : Option ℚ)
        (dims : ℚ × ℚ × ℚ), e < 0 ∨ d < 0 →
        ∃ msg, wrappers_custom_ref_region s mask incl e excl d P t dims =
          .error (.invalidParameter msg)) := by
  constructor
  · intro s M c
    have hb : ballOffsetsI (-1) = [] := by
      rw [ballOffsetsI, if_neg (by omega)]
    constructor <;> simp [erodeI, dilateI, hb]
  · exact fun s mask incl e excl d P t dims h =>
      wrappers_negative_radius_rejected s mask incl e excl d P t dims h

/-- Witness for **C8, amended**: the operators at radius −1 on a concrete
volume, and the wrapper rejecting radius −2. -/
theorem morphology_negative_radius_amended_witness :
    (erodeI sh2 oneVol (-1) (0, 0, 1) = 1 ∧ dilateI sh2 oneVol (-1) (0, 0, 1) = 0) ∧
    ((-2 : Int) < 0 ∨ (0 : Int) < 0) ∧
    (∃ msg, wrappers_custom_ref_region sh2 oneVol [1] (-2) [] 0 none none
      (1, 1, 1) = .error (.invalidParameter msg)) :=
  ⟨morphology_negative_radius_amended.1 sh2 oneVol (0, 0, 1),
    Or.inl (by decide),
    morphology_negative_radius_amended.2 sh2 oneVol [1] (-2) [] 0 none none
      (1, 1, 1) (Or.inl (by decide))⟩

theorem custom_ref_region_ne_zero_imp (s : Shape) (mask : Coord → Int)
    (incl : List Int) (e : Nat) (excl : List Int) (d : Nat)
    (P : Option (Coord → ℚ)) (t : Option ℚ) (c : Coord)
    (hc : inB s c = true)
    (h : custom_ref_region s mask incl e excl d P t c ≠ 0) :
    labelMask s mask incl c ≠ 0 := by
  have key : ∀ S' : Coord → Int, (S' c ≠ 0 → labelMask s mask incl c ≠ 0) →
      _clip (erode s S' e c - dilate s (labelMask s mask excl) d c) ≠ 0 →
      labelMask s mask incl c ≠ 0 := by
    intro S' himp hcl
    have hd := dilate_nonneg s (labelMask s mask excl) d c
    rcases erode_mem s S' e c with he | he
    · rw [he] at hcl
      exact absurd (_clip_of_nonpos (by omega)) hcl
    · exact himp (erode_eq_one_imp hc he)
  rcases P with _ | pm <;> rcases t with _ | pt
  · exact key _ (fun hne => hne) h
  · exact key _ (fun hne => hne) h
  · exact key _ (fun hne => hne) h
  · refine key _ ?_ h
    intro hne hsel0
    refine hne ?_
    show labelMask s mask incl c * (if pm c ≥ pt then 1 else 0) = 0
    rw [hsel0, zero_mul]

/-- **C9.** For every general-builder invocation with a non-empty include
set, non-negative radii and an optional probability pair, the retention
percentage of the builder's result against the raw label selection of step 1
lies in `[0, 100]`: the result never contains a voxel outside the original
selection. -/
theorem custom_ref_region_retention_in_range (s : Shape) (mask : Coord → Int)
    (incl : List Int) (e : Nat) (excl : List Int) (d : Nat)
    (P : Option (Coord → ℚ)) (t : Option ℚ) (hincl : incl ≠ []) :
    0 ≤ retention_percentage s (labelMask s mask incl)
        (custom_ref_region s mask incl e excl d P t) ∧
    retention_percentage s (labelMask s mask incl)
        (custom_ref_region s mask incl e excl d P t) ≤ 100 := by
  have hcount : voxel_count s (custom_ref_region s mask incl e excl d P t) ≤
      voxel_count s (labelMask s mask incl) := by
    unfold voxel_count
    refine List.countP_mono_left ?_
    intro c hcmem hp
    exact decide_eq_true
      (custom_ref_region_ne_zero_imp s mask incl e excl d P t c
        (inB_of_mem_coords hcmem) (of_decide_eq_true hp))
  simp only [retention_percentage]
  by_cases ho : voxel_count s (labelMask s mask incl) = 0
  · rw [if_pos ho]
    norm_num
  · rw [if_neg ho]
    have hopos : (0 : ℚ) < (voxel_count s (labelMask s mask incl) : ℚ) := by
      exact_mod_cast Nat.pos_of_ne_zero ho
    constructor
    · positivity
    · calc (voxel_count s (custom_ref_region s mask incl e excl d P t) : ℚ) /
            (voxel_count s (labelMask s mask incl) : ℚ) * 100
          ≤ 1 * 100 := by
            refine mul_le_mul_of_nonneg_right ?_ (by norm_num)
            exact (div_le_one hopos).mpr (by exact_mod_cast hcount)
      _ = 100 := one_mul 100

/-- Witness for **C9**: full retention on a uniformly labelled grid. -/
theorem custom_ref_region_retention_in_range_witness :
    ([1] : List Int) ≠ [] ∧
    (0 ≤ retention_percentage sh2 (labelMask sh2 oneVol [1])
        (custom_ref_region sh2 oneVol [1] 0 [] 0 none none) ∧
      retention_percentage sh2 (labelMask sh2 oneVol [1])
        (custom_ref_region sh2 oneVol [1] 0 [] 0 none none) ≤ 100) :=
  ⟨by decide,
    custom_ref_region_retention_in_range sh2 oneVol [1] 0 [] 0 none none
      (by decide)⟩

set_option maxRecDepth 100000

/-- **C2.** Evaluation of the cerebellar builder at a failing input: on a
1×1×1 cerebellar volume holding the single vermis label 606 (all-zero brain
volume), the saved output voxel is 606 — the vermis voxel is retained with
its raw label value, because the in-place visualization writes re-flag the
limited mask at vermis/cortex voxels before it is used to zero the output —
while the claimed formula `clip(erode(cereb, 1) − dilate(vermis, 4) −
dilate(cortex, 4), 0, 1)` gives 0 there; in particular the output voxel is
neither 0 nor 1. -/
theorem cerebellum_output_at_vermis_voxel :
    cerebellum_pipeline sh1 vermisVol zeroVol (0, 0, 0) = 606 ∧
    cerebellumSpecFormula sh1 vermisVol zeroVol (0, 0, 0) = 0 ∧
    cerebellum_pipeline sh1 vermisVol zeroVol (0, 0, 0) ≠ 0 ∧
    cerebellum_pipeline sh1 vermisVol zeroVol (0, 0, 0) ≠ 1 := by
  decide

/-- **C10.** The cerebellar builder's output is independent of its
`aseg_segmentation_file` argument: the body loads the brain volume from the
module-level `brain_segmentation` path, never from the parameter, so two
calls differing only in that argument produce identical outputs under every
loading environment. -/
theorem cerebellum_reference_region_ignores_aseg
    (load : String → Shape × (Coord → Int)) (f a a' : String) :
    cerebellum_reference_region load f a = cerebellum_reference_region load f a' :=
  rfl

end RefRegion
